import Mathlib

/-!
Verification of `src/js/main/chrome_tabs.js` (class `ChromeTabs`): a shallow
embedding of its message-dispatch protocol (lazy content-script injection with
exactly-once retry), the document playback engine, the comparator factory and
the markdown overview formatter, together with theorems settling the frozen
claims about them.

Asynchronous host calls are embedded as explicit environments describing the
outcome of each underlying call; promise chains become explicit state passing
with `Except` for rejection.
-/

set_option autoImplicit false

/-- A JavaScript `Error` value, identified by its message string
(`new Error(msg)` in the source). -/
structure JsError where
  message : String
deriving DecidableEq, Repr

/-- XRange: serializable description of a DOM text range
(typedef at chrome_tabs.js:185). -/
structure XRange where
  collapsed : Bool
  startContainerPath : String
  startOffset : Nat
  endContainerPath : String
  endOffset : Nat
deriving DecidableEq, Repr

/-- Bounding client rect (typedef at chrome_tabs.js:348). Coordinates are
modelled as integers; only `top` is consumed by the embedded code. -/
structure Rect where
  top : Int
  right : Int
  bottom : Int
  left : Int
  width : Int
  height : Int
deriving DecidableEq, Repr

/-- A tab (typedef at chrome_tabs.js:13), extended with the `title` field read
by `getFormattedOverviewText`. -/
structure Tab where
  id : Int
  url : String
  title : String
deriving DecidableEq, Repr

/-- A log-entry document (commented typedef at chrome_tabs.js:383-397).
Fields `_rev` and `match` are never read by the embedded code and are omitted.
Optional fields are modelled as total: the embedded functions read them only
for the verbs that carry them. -/
structure Doc where
  _id : String
  verb : String
  date : Int
  range : XRange
  className : String
  text : String
  title : String
  correspondingDocumentId : String
deriving DecidableEq, Repr

/-- A highlight style definition as stored by the style store: className and
display title, ranked by list position. -/
structure HighlightDefinition where
  className : String
  title : String
deriving DecidableEq, Repr

/-- A request message to the content script: the `id` discriminant plus the
optional operation-specific fields the source ever sets. A `none` field is a
field absent from the JS object. -/
structure Message where
  id : String
  range : Option XRange := none
  xrange : Option XRange := none
  highlightId : Option String := none
  className : Option String := none
  fragment : Option String := none
deriving DecidableEq, Repr

namespace ChromeTabs

/-- ChromeTabs.MESSAGE_ID (chrome_tabs.js:590). -/
def MESSAGE_ID.CREATE_HIGHLIGHT : String := "create_highlight"

def MESSAGE_ID.UPDATE_HIGHLIGHT : String := "update_highlight"

def MESSAGE_ID.DELETE_HIGHLIGHT : String := "delete_highlight"

def MESSAGE_ID.GET_SELECTION_RANGE : String := "get_selection_range"

def MESSAGE_ID.GET_RANGE_TEXT : String := "get_range_text"

def MESSAGE_ID.SELECT_HIGHLIGHT : String := "select_highlight"

def MESSAGE_ID.SELECT_RANGE : String := "select_range"

def MESSAGE_ID.IS_HIGHLIGHT_IN_DOM : String := "is_highlight_in_dom"

def MESSAGE_ID.SCROLL_TO : String := "scroll_to"

def MESSAGE_ID.GET_NODE_ATTRIBUTE_VALUE : String := "get_node_attribute_value"

def MESSAGE_ID.GET_BOUNDING_CLIENT_RECT : String := "get_bounding_client_rect"

def MESSAGE_ID.GET_HOVERED_HIGHLIGHT_ID : String := "get_hovered_highlight_id"

/-- ChromeTabs.DEFAULT_SCRIPTS (chrome_tabs.js:580): the fixed ordered list of
support scripts injected on demand. -/
def DEFAULT_SCRIPTS : List String :=
  ["js/main/chrome_storage.js", "js/main/chrome_highlight_storage.js",
   "js/utils.js",
   "js/stylesheet.js",
   "js/content_script/range_utils.js",
   "js/content_script/highlighter.js",
   "js/content_script/content_script.js"]

/-- ChromeTabs.OVERVIEW_FORMAT (chrome_tabs.js:575). -/
def OVERVIEW_FORMAT.MARKDOWN : String := "markdown"

def OVERVIEW_FORMAT.MARKDOWN_NO_FOOTER : String := "markdown-no-footer"

end ChromeTabs

/-- Modelled from the spec: the DB module is not under src/; §3 and §4.4 give
its document verb constants as the strings `create` and `delete`
(`DB.DOCUMENT.VERB.CREATE` / `DB.DOCUMENT.VERB.DELETE` in the source). -/
def DB.VERB.CREATE : String := "create"

/-- Modelled from the spec: see `DB.VERB.CREATE`. -/
def DB.VERB.DELETE : String := "delete"

/-- Modelled from the spec: §4.1 Serial Promise Runner (`PromiseUtils.serial`,
not under src/): given an ordered sequence of zero-argument asynchronous
thunks, execute them one at a time, starting the next only after the previous
settles; if a thunk fails, the whole run fails immediately with that failure
and later thunks do not run; on success resolve with the ordered results.
A thunk is embedded as a function of the explicit world state `σ` returning
the updated state plus its settlement; the state is kept on failure so that
effects performed before the failing thunk remain observable. -/
def PromiseUtils.serial {σ ε α : Type} :
    List (σ → σ × Except ε α) → σ → σ × Except ε (List α)
  | [], s => (s, Except.ok [])
  | f :: fs, s =>
    match f s with
    | (s1, Except.error e) => (s1, Except.error e)
    | (s1, Except.ok a) =>
      match PromiseUtils.serial fs s1 with
      | (s2, Except.error e) => (s2, Except.error e)
      | (s2, Except.ok as) => (s2, Except.ok (a :: as))

/-- The raw outcome the host passes to a `chrome.tabs.sendMessage` callback:
`chrome.runtime.lastError` (if any) and the response (`none` = `undefined`). -/
structure RawSendOutcome (ρ : Type) where
  lastError : Option String
  response : Option ρ

namespace ChromeTabs

/-- The environment a `ChromeTabs` instance runs against: the outcome of the
n-th delivery attempt for the message being sent, and the outcome of the n-th
single-file `chrome.tabs.executeScript` call. -/
structure MessengerEnv (ρ : Type) where
  deliver : Nat → RawSendOutcome ρ
  execFile : Nat → Except JsError Unit

/-- sendMessageInternal (chrome_tabs.js:160): rejects on an explicit host
error, resolves on any defined response, rejects with "Undefined response"
when the content script did not handle the message. -/
def sendMessageInternal {ρ : Type} (out : RawSendOutcome ρ) : Except JsError ρ :=
  match out.lastError with
  | some msg => Except.error ⟨msg⟩
  | none =>
    match out.response with
    | some r => Except.ok r
    | none => Except.error ⟨"Undefined response"⟩

/-- executeScript on the DEFAULT_SCRIPTS list, i.e. executeDefaultScript
(chrome_tabs.js:85,119): each file is injected strictly after the previous one
via the serial runner; the state is the count of single-file calls so far. -/
def executeDefaultScriptRun {ρ : Type} (env : MessengerEnv ρ) :
    Nat × Except JsError (List Unit) :=
  PromiseUtils.serial
    (DEFAULT_SCRIPTS.map (fun _file => fun n => (n + 1, env.execFile n))) 0

/-- Observable trace of one `sendMessage` call: its settlement, the number of
delivery attempts (`sendMessageInternal` calls) and the number of
`executeDefaultScript` invocations it performed. -/
structure SendTrace (ρ : Type) where
  result : Except JsError ρ
  attempts : Nat
  injections : Nat
deriving Repr

/-- sendMessage with `executeDefaultScript = true` (the recursive call at
chrome_tabs.js:145): inject the default scripts, then attempt delivery; any
failure in this chain propagates (the catch rethrows when
`executeDefaultScript` is already true). Delivery attempt index 1 marks the
retry. -/
def sendMessageWithInjection {ρ : Type} (env : MessengerEnv ρ) : SendTrace ρ :=
  match (executeDefaultScriptRun env).2 with
  | Except.error e => { result := Except.error e, attempts := 0, injections := 1 }
  | Except.ok _ =>
    match sendMessageInternal (env.deliver 1) with
    | Except.ok r => { result := Except.ok r, attempts := 1, injections := 1 }
    | Except.error e => { result := Except.error e, attempts := 1, injections := 1 }

/-- sendMessage (chrome_tabs.js:140), called as every command-layer operation
calls it, with `executeDefaultScript` defaulted to false: attempt delivery
directly; on failure, recurse once with `executeDefaultScript = true`. -/
def sendMessage {ρ : Type} (env : MessengerEnv ρ) : SendTrace ρ :=
  match sendMessageInternal (env.deliver 0) with
  | Except.ok r => { result := Except.ok r, attempts := 1, injections := 0 }
  | Except.error _ =>
    let t := sendMessageWithInjection env
    { result := t.result, attempts := 1 + t.attempts, injections := t.injections }

/-- The request object built by createHighlight (chrome_tabs.js:202). -/
def createHighlightMessage (range : XRange) (className : String)
    (highlightId : String) : Message :=
  { id := MESSAGE_ID.CREATE_HIGHLIGHT, range := some range,
    highlightId := some highlightId, className := some className }

/-- The request object built by deleteHighlight (chrome_tabs.js:234). -/
def deleteHighlightMessage (highlightId : String) : Message :=
  { id := MESSAGE_ID.DELETE_HIGHLIGHT, highlightId := some highlightId }

/-- JavaScript truthiness of an optional string argument, as tested by
`if (highlightId)` at chrome_tabs.js:279: absent (undefined/null) and the
empty string are falsy. -/
def jsTruthyString : Option String → Bool
  | none => false
  | some s => !(s == "")

/-- The request object built by selectHighlight (chrome_tabs.js:276): the
`highlightId` field is set only when the argument is truthy. -/
def selectHighlightMessage (highlightId : Option String) : Message :=
  let message : Message := { id := MESSAGE_ID.SELECT_HIGHLIGHT }
  if jsTruthyString highlightId then { message with highlightId := highlightId }
  else message

/-- The request object built by selectRange (chrome_tabs.js:293): the `xrange`
field is set only when the argument is truthy; an actual range object is
always truthy, so truthiness is presence. -/
def selectRangeMessage (xrange : Option XRange) : Message :=
  let message : Message := { id := MESSAGE_ID.SELECT_RANGE }
  if xrange.isSome then { message with xrange := xrange }
  else message

end ChromeTabs

/-- A JavaScript `Map` keyed by strings, as an insertion-ordered association
list with unique keys (the only construction below starts from empty and
inserts via `JsMap.set`). -/
abbrev JsMap (β : Type) : Type := List (String × β)

/-- Map.prototype.set: update in place when the key exists, append
otherwise. -/
def JsMap.set {β : Type} (m : JsMap β) (k : String) (v : β) : JsMap β :=
  if m.any (fun p => p.1 == k) then
    m.map (fun p => if p.1 == k then (k, v) else p)
  else m ++ [(k, v)]

/-- Map.prototype.get: the value at the key, or `none` (undefined). -/
def JsMap.get {β : Type} (m : JsMap β) (k : String) : Option β :=
  (m.find? (fun p => p.1 == k)).map (fun p => p.2)

/-- Map.prototype.size. -/
def JsMap.size {β : Type} (m : JsMap β) : Nat := m.length

/-- The empty Map (`new Map()`). -/
def JsMap.empty {β : Type} : JsMap β := []

namespace ChromeTabs

/-- One command-layer call issued during playback, i.e. the request message it
would send through the Messenger. -/
abbrev Command := Message

/-- Observable state of one playbackDocuments run: the running counter `sum`,
the command-layer calls issued so far (in order), the console error log, and
the documents passed to `onPlaybackError` (in order). -/
structure PlaybackState where
  sum : Int
  calls : List Command
  errors : List String
  reported : List Doc
deriving DecidableEq, Repr

/-- The initial state of a playbackDocuments run (`let sum = 0`). -/
def initPlaybackState : PlaybackState := { sum := 0, calls := [], errors := [], reported := [] }

/-- One playback thunk (the function built per document at
chrome_tabs.js:411-443). `env n` is the settled value of the n-th
command-layer call of the run (`n` = calls issued so far); `cb` records
whether an `onPlaybackError` callback was supplied. The switch increments or
decrements `sum` and issues the create/delete call, or logs "unknown verb" and
resolves false; the wrapper then reports the document when the settled value
is falsy and a callback exists. A rejection is not caught. -/
def playbackStep (env : Nat → Except JsError Bool) (cb : Bool) (doc : Doc)
    (s : PlaybackState) : PlaybackState × Except JsError Unit :=
  let (s1, res) :=
    if doc.verb = DB.VERB.CREATE then
      ({ s with sum := s.sum + 1,
                calls := s.calls ++ [createHighlightMessage doc.range doc.className doc._id] },
       env s.calls.length)
    else if doc.verb = DB.VERB.DELETE then
      ({ s with sum := s.sum - 1,
                calls := s.calls ++ [deleteHighlightMessage doc.correspondingDocumentId] },
       env s.calls.length)
    else
      ({ s with errors := s.errors ++ ["unknown verb"] }, Except.ok false)
  match res with
  | Except.error e => (s1, Except.error e)
  | Except.ok ok =>
    (if !ok && cb then { s1 with reported := s1.reported ++ [doc] } else s1,
     Except.ok ())

/-- The serial run at the heart of playbackDocuments (chrome_tabs.js:411):
`PromiseUtils.serial(documents.map(...))`, from an arbitrary starting
state. -/
def playbackRunFrom (env : Nat → Except JsError Bool) (cb : Bool)
    (docs : List Doc) (s : PlaybackState) : PlaybackState × Except JsError (List Unit) :=
  PromiseUtils.serial (docs.map (fun doc => playbackStep env cb doc)) s

/-- playbackDocuments (chrome_tabs.js:407): the serial run from the initial
state. -/
def playbackDocuments (env : Nat → Except JsError Bool) (docs : List Doc)
    (cb : Bool) : PlaybackState × Except JsError (List Unit) :=
  playbackRunFrom env cb docs initPlaybackState

/-- The value playbackDocuments resolves to (`.then(() => sum)` at
chrome_tabs.js:444), or the propagated rejection. -/
def playbackResult (env : Nat → Except JsError Bool) (docs : List Doc)
    (cb : Bool) : Except JsError Int :=
  match playbackDocuments env docs cb with
  | (s, Except.ok _) => Except.ok s.sum
  | (_, Except.error e) => Except.error e

/-- The observable outcome of a serial playback run: final state plus
settled-or-rejected status (the per-thunk unit results are collapsed). -/
def playbackOutcome (p : PlaybackState × Except JsError (List Unit)) :
    PlaybackState × Except JsError Unit :=
  (p.1, p.2.map (fun _ => ()))

/-- Environment for the `location` comparator: the settled values of
`isHighlightInDOM` and `getHighlightBoundingClientRect` for a given highlight
id (the latter may resolve to null, i.e. `none`). -/
structure LocationEnv where
  isInDOM : String → Except JsError Bool
  boundingRect : String → Except JsError (Option Rect)

/-- The comparator returned by getComparisonFunction("location")
(chrome_tabs.js:460-467): query DOM presence; if present, fetch the bounding
rect and resolve to `rect.top`; if absent, reject with `new Error()` (empty
message); reading `.top` off a null rect throws. -/
def locationComparator (env : LocationEnv) (doc : Doc) : Except JsError Int :=
  match env.isInDOM doc._id with
  | Except.error e => Except.error e
  | Except.ok isInDOM =>
    if isInDOM then
      match env.boundingRect doc._id with
      | Except.error e => Except.error e
      | Except.ok (some rect) => Except.ok rect.top
      | Except.ok none => Except.error ⟨"TypeError"⟩
    else Except.error ⟨""⟩

/-- The body of the `items[...].forEach(({className}, index) => map.set(...))`
loop at chrome_tabs.js:477, with the running index made explicit. -/
def buildStyleMapFrom (i : Nat) : List HighlightDefinition → JsMap Nat → JsMap Nat
  | [], m => m
  | d :: rest, m => buildStyleMapFrom (i + 1) rest (m.set d.className i)

/-- The className-to-rank map the `style` comparator builds from the fetched
definition list: key is the definition className, value the index it
occupies. -/
def buildStyleMap (defs : List HighlightDefinition) : JsMap Nat :=
  buildStyleMapFrom 0 defs JsMap.empty

/-- State captured by the closure returned by getComparisonFunction("style")
(chrome_tabs.js:471): the lazily built map, plus a count of the definition
fetches (`new ChromeHighlightStorage().getAll()` calls) it has issued. -/
structure StyleComparatorState where
  map : JsMap Nat
  fetches : Nat
deriving DecidableEq, Repr

/-- The state of a freshly constructed `style` comparator (`let map = new
Map()`). -/
def initStyleComparatorState : StyleComparatorState := { map := JsMap.empty, fetches := 0 }

/-- One invocation of the `style` comparator (chrome_tabs.js:473-484): when
the map is empty, fetch the definition list (`defs` is what the external style
store returns), populate the map, and resolve to the rank of the document
className; otherwise resolve from the cached map. -/
def styleComparatorCall (defs : List HighlightDefinition) (doc : Doc)
    (s : StyleComparatorState) : StyleComparatorState × Option Nat :=
  if s.map.size = 0 then
    let m := buildStyleMap defs
    ({ map := m, fetches := s.fetches + 1 }, m.get doc.className)
  else
    (s, s.map.get doc.className)

/-- A sequence of invocations of one `style` comparator instance, returning
the final closure state and the value each invocation resolved to. -/
def styleComparatorRun (defs : List HighlightDefinition) :
    List Doc → StyleComparatorState → StyleComparatorState × List (Option Nat)
  | [], s => (s, [])
  | d :: ds, s =>
    let (s1, v) := styleComparatorCall defs d s
    let (s2, vs) := styleComparatorRun defs ds s1
    (s2, v :: vs)

/-- The comparator returned by getComparisonFunction("time")
(chrome_tabs.js:457): resolves directly to the stored creation date. -/
def timeComparator (doc : Doc) : Except JsError Int :=
  Except.ok doc.date

/-- JavaScript template interpolation of a value that may be undefined
(`${titles.get(className)}` at chrome_tabs.js:541). -/
def optStr : Option String → String
  | some s => s
  | none => "undefined"

/-- The rendering loop of getFormattedOverviewText (chrome_tabs.js:538-551),
as the text it appends to the accumulator: per document, a new `##` subheading
(display title looked up in `titles`) when the className differs from
`currentClassName`, a bare separator line otherwise, then the text as an
unordered list item. -/
def renderBody (titles : JsMap String) : List Doc → Option String → String
  | [], _ => ""
  | d :: rest, currentClassName =>
    if currentClassName = some d.className then
      "\n" ++ ("\n* " ++ d.text) ++ renderBody titles rest currentClassName
    else
      ("\n\n## " ++ optStr (titles.get d.className)) ++ ("\n* " ++ d.text)
        ++ renderBody titles rest (some d.className)

/-- The markdown document of getFormattedOverviewText before the footer: the
top-level heading linking the tab title to its url (chrome_tabs.js:534),
followed by the rendered entries. -/
def renderMarkdown (tab : Tab) (titles : JsMap String) (docs : List Doc) : String :=
  ("# [" ++ tab.title ++ "](" ++ tab.url ++ ")") ++ renderBody titles docs none

/-- The className-to-display-title map getFormattedOverviewText builds from
the fetched definitions (chrome_tabs.js:511-513). -/
def buildTitleMap (defs : List HighlightDefinition) : JsMap String :=
  defs.foldl (fun m d => m.set d.className d.title) JsMap.empty

/-- The order in which getFormattedOverviewText iterates the (already sorted)
documents: reversed when `invert` is set (chrome_tabs.js:527-529). -/
def finalDocOrder (docs : List Doc) (invert : Bool) : List Doc :=
  if invert then docs.reverse else docs

/-- getFormattedOverviewText (chrome_tabs.js:500) from the point where the
external fetches have settled: `tab` is the tab metadata, `defs` the fetched
style definitions, `docs` the matching log entries after the optional
comparator sort, `footer` the host-localized footer text appended after the
`---` rule. Unsupported formats reject with "unknown format". -/
def getFormattedOverviewText (tab : Tab) (defs : List HighlightDefinition)
    (docs : List Doc) (format : String) (invert : Bool) (footer : String) :
    Except JsError String :=
  let titles := buildTitleMap defs
  let docs := finalDocOrder docs invert
  if format = OVERVIEW_FORMAT.MARKDOWN ∨ format = OVERVIEW_FORMAT.MARKDOWN_NO_FOOTER then
    Except.ok (renderMarkdown tab titles docs ++
      (if format ≠ OVERVIEW_FORMAT.MARKDOWN_NO_FOOTER then "\n\n---\n" ++ footer else ""))
  else Except.error ⟨"unknown format"⟩

end ChromeTabs

/-- A concatenation-free statement of the grouped rendering the spec
describes: list items joined by a given separator. -/
def joinSep (sep : String) : List String → String
  | [] => ""
  | [a] => a
  | a :: b :: rest => a ++ sep ++ joinSep sep (b :: rest)

/-- Concatenation of a list of strings in order. -/
def strConcat : List String → String
  | [] => ""
  | a :: rest => a ++ strConcat rest

/-- Refinement-side rendering of one maximal run of consecutive documents
sharing a className, following the words of the spec: one `##` subheading with
the looked-up display title, then each text as an unordered list item, the
items separated by blank lines. -/
def specGroupRender (titles : JsMap String) (g : List Doc) : String :=
  match g with
  | [] => ""
  | d :: _ =>
    "\n\n## " ++ ChromeTabs.optStr (titles.get d.className) ++ "\n"
      ++ joinSep "\n\n" (g.map (fun x => "* " ++ x.text))

/-- Refinement-side rendering of the entry list, following the words of the
spec: iterate the entries in final order, and emit a new subheading exactly
when the className changes from the previous entry, so that each maximal run
of consecutive same-className entries shares one subheading. -/
def specRenderBody (titles : JsMap String) : List Doc → String
  | [] => ""
  | d :: rest =>
    specGroupRender titles (d :: rest.takeWhile (fun e => e.className == d.className))
      ++ specRenderBody titles (rest.dropWhile (fun e => e.className == d.className))
termination_by docs => docs.length
decreasing_by
  simp only [List.length_cons]
  exact Nat.lt_succ_of_le (List.dropWhile_sublist _).length_le

/-! Sample values used by witnesses and counterexamples. -/

/-- A sample range. -/
def sampleXRange : XRange :=
  { collapsed := false, startContainerPath := "/html/body/p[1]", startOffset := 0,
    endContainerPath := "/html/body/p[1]", endOffset := 5 }

/-- A sample create document. -/
def sampleCreateDoc : Doc :=
  { _id := "doc1", verb := "create", date := 10, range := sampleXRange,
    className := "default-red", text := "A", title := "Page",
    correspondingDocumentId := "" }

/-- A sample delete document cancelling `sampleCreateDoc`. -/
def sampleDeleteDoc : Doc :=
  { _id := "doc2", verb := "delete", date := 20, range := sampleXRange,
    className := "", text := "", title := "Page",
    correspondingDocumentId := "doc1" }

/-- A sample document with an unrecognized verb. -/
def sampleUnknownDoc : Doc :=
  { _id := "doc3", verb := "annotate", date := 30, range := sampleXRange,
    className := "default-red", text := "B", title := "Page",
    correspondingDocumentId := "" }

/-! Claim theorems. -/

/-- C1: for every message and every outcome of the underlying calls,
sendMessage performs at most two delivery attempts: a first direct attempt
and, only when that attempt fails, one injection of the default scripts
followed by exactly one retry; if the retry also fails its error propagates
and no second injection or third delivery attempt occurs. -/
theorem sendMessage_at_most_two_attempts (ρ : Type) (env : ChromeTabs.MessengerEnv ρ) :
    (ChromeTabs.sendMessage env).attempts ≤ 2 ∧
    (ChromeTabs.sendMessage env).injections ≤ 1 ∧
    (∀ r, ChromeTabs.sendMessageInternal (env.deliver 0) = Except.ok r →
      ChromeTabs.sendMessage env =
        { result := Except.ok r, attempts := 1, injections := 0 }) ∧
    (∀ e, ChromeTabs.sendMessageInternal (env.deliver 0) = Except.error e →
      (ChromeTabs.sendMessage env).injections = 1) ∧
    (∀ e0 us e1, ChromeTabs.sendMessageInternal (env.deliver 0) = Except.error e0 →
      (ChromeTabs.executeDefaultScriptRun env).2 = Except.ok us →
      ChromeTabs.sendMessageInternal (env.deliver 1) = Except.error e1 →
      ChromeTabs.sendMessage env =
        { result := Except.error e1, attempts := 2, injections := 1 }) := by
  unfold ChromeTabs.sendMessage ChromeTabs.sendMessageWithInjection
  cases h0 : ChromeTabs.sendMessageInternal (env.deliver 0) with
  | ok r => simp
  | error e =>
    cases hI : (ChromeTabs.executeDefaultScriptRun env).2 with
    | error e2 => simp
    | ok us =>
      cases h1 : ChromeTabs.sendMessageInternal (env.deliver 1) with
      | ok r => simp
      | error e1 => simp

/-- Environment for the C1 witness: every delivery attempt reports a
transport error, every script injection succeeds. -/
def envC1Witness : ChromeTabs.MessengerEnv Bool :=
  { deliver := fun _ => { lastError := some "no receiving end", response := none },
    execFile := fun _ => Except.ok () }

/-- C1 witness: with both delivery attempts failing and injection succeeding,
sendMessage makes exactly two attempts, one injection, and propagates the
retry error. -/
theorem sendMessage_at_most_two_attempts_witness :
    ChromeTabs.sendMessage envC1Witness =
      { result := Except.error ⟨"no receiving end"⟩, attempts := 2, injections := 1 } :=
  (sendMessage_at_most_two_attempts Bool envC1Witness).2.2.2.2
    ⟨"no receiving end"⟩ [(), (), (), (), (), (), ()] ⟨"no receiving end"⟩ rfl rfl rfl

/-- C6: the location comparator resolves to the top coordinate of the
bounding rect when the highlight is present in the DOM, and rejects when it is
absent. -/
theorem locationComparator_presence (env : ChromeTabs.LocationEnv) (d : Doc) :
    (∀ r : Rect, env.isInDOM d._id = Except.ok true →
       env.boundingRect d._id = Except.ok (some r) →
       ChromeTabs.locationComparator env d = Except.ok r.top) ∧
    (env.isInDOM d._id = Except.ok false →
       ChromeTabs.locationComparator env d = Except.error ⟨""⟩) := by
  constructor
  · intro r h1 h2
    unfold ChromeTabs.locationComparator
    rw [h1]
    simp [h2]
  · intro h1
    unfold ChromeTabs.locationComparator
    rw [h1]
    simp

/-- Environment for the C6 witness, present case: the highlight is in the DOM
with a rect whose top is 42. -/
def envLocPresent : ChromeTabs.LocationEnv :=
  { isInDOM := fun _ => Except.ok true,
    boundingRect := fun _ => Except.ok (some { top := 42, right := 0, bottom := 0,
                                               left := 0, width := 0, height := 0 }) }

/-- Environment for the C6 witness, absent case: the highlight is not in the
DOM. -/
def envLocAbsent : ChromeTabs.LocationEnv :=
  { isInDOM := fun _ => Except.ok false,
    boundingRect := fun _ => Except.error ⟨"unused"⟩ }

/-- C6 witness: concrete environments for both branches. -/
theorem locationComparator_presence_witness :
    ChromeTabs.locationComparator envLocPresent sampleCreateDoc = Except.ok 42 ∧
    ChromeTabs.locationComparator envLocAbsent sampleCreateDoc = Except.error ⟨""⟩ :=
  ⟨(locationComparator_presence envLocPresent sampleCreateDoc).1
      { top := 42, right := 0, bottom := 0, left := 0, width := 0, height := 0 } rfl rfl,
   (locationComparator_presence envLocAbsent sampleCreateDoc).2 rfl⟩

/-- C10: selectHighlight omits the highlightId field for every falsy
argument, the empty string included, and selectRange omits the xrange field
for a falsy xrange, so both clear the selection rather than select. -/
theorem selectMessage_falsy_clears :
    (∀ h : Option String, ChromeTabs.jsTruthyString h = false →
       ChromeTabs.selectHighlightMessage h =
         { id := ChromeTabs.MESSAGE_ID.SELECT_HIGHLIGHT }) ∧
    ChromeTabs.selectHighlightMessage (some "") = ChromeTabs.selectHighlightMessage none ∧
    (ChromeTabs.selectHighlightMessage (some "")).highlightId = none ∧
    (∀ x : Option XRange, x.isSome = false →
       ChromeTabs.selectRangeMessage x =
         { id := ChromeTabs.MESSAGE_ID.SELECT_RANGE }) := by
  refine ⟨?_, rfl, rfl, ?_⟩
  · intro h hf
    unfold ChromeTabs.selectHighlightMessage
    rw [hf]
    simp
  · intro x hx
    unfold ChromeTabs.selectRangeMessage
    rw [hx]
    simp

/-- C10 witness: the empty-string highlightId and the absent xrange at
concrete inputs. -/
theorem selectMessage_falsy_clears_witness :
    ChromeTabs.selectHighlightMessage (some "") =
      { id := ChromeTabs.MESSAGE_ID.SELECT_HIGHLIGHT } ∧
    ChromeTabs.selectRangeMessage none =
      { id := ChromeTabs.MESSAGE_ID.SELECT_RANGE } :=
  ⟨selectMessage_falsy_clears.1 (some "") rfl,
   selectMessage_falsy_clears.2.2.2 none rfl⟩

/-! Helper lemmas about the playback engine. -/

/-- Unfolding of a serial playback run over a cons cell whose first thunk
settles successfully: the run continues on the tail from the updated state,
with the same observable outcome. -/
theorem playbackOutcome_cons (env : Nat → Except JsError Bool) (cb : Bool)
    (d : Doc) (rest : List Doc) (s s1 : ChromeTabs.PlaybackState)
    (hstep : ChromeTabs.playbackStep env cb d s = (s1, Except.ok ())) :
    ChromeTabs.playbackOutcome (ChromeTabs.playbackRunFrom env cb (d :: rest) s)
      = ChromeTabs.playbackOutcome (ChromeTabs.playbackRunFrom env cb rest s1) := by
  unfold ChromeTabs.playbackRunFrom ChromeTabs.playbackOutcome
  simp only [List.map_cons, PromiseUtils.serial, hstep]
  cases hrest : PromiseUtils.serial (rest.map (fun doc => ChromeTabs.playbackStep env cb doc)) s1 with
  | mk s2 r => cases r <;> simp [Except.map]

/-- Unfolding of a serial playback run over a cons cell whose first thunk
rejects: the run stops there with the state the thunk left. -/
theorem playbackRunFrom_cons_error (env : Nat → Except JsError Bool) (cb : Bool)
    (d : Doc) (rest : List Doc) (s s1 : ChromeTabs.PlaybackState) (e : JsError)
    (hstep : ChromeTabs.playbackStep env cb d s = (s1, Except.error e)) :
    ChromeTabs.playbackRunFrom env cb (d :: rest) s = (s1, Except.error e) := by
  unfold ChromeTabs.playbackRunFrom
  simp only [List.map_cons, PromiseUtils.serial, hstep]

/-- C2 counterexample: playing back a single entry with the unrecognized verb
`annotate` and a failure callback supplied, the callback IS invoked with that
entry (the operation resolves to false, not true), refuting the claim that the
callback is not invoked for such an entry; the run itself still settles
successfully. -/
theorem playback_unknown_verb_counterexample :
    (ChromeTabs.playbackDocuments (fun _ => Except.ok true) [sampleUnknownDoc] true).1.reported
      = [sampleUnknownDoc] ∧
    (ChromeTabs.playbackDocuments (fun _ => Except.ok true) [sampleUnknownDoc] true).1.reported
      ≠ [] ∧
    (ChromeTabs.playbackDocuments (fun _ => Except.ok true) [sampleUnknownDoc] true).2
      = Except.ok [()] := by
  refine ⟨rfl, ?_, rfl⟩
  decide

/-- C2 amended: an entry whose verb is neither create nor delete logs
"unknown verb", issues no command-layer call, resolves its operation to false
— so the failure callback, when supplied, IS invoked with the entry — leaves
the running counter unchanged, and the run continues with the remaining
entries. -/
theorem playback_unknown_verb (env : Nat → Except JsError Bool) (d : Doc)
    (rest : List Doc) (s : ChromeTabs.PlaybackState) (cb : Bool)
    (h1 : d.verb ≠ DB.VERB.CREATE) (h2 : d.verb ≠ DB.VERB.DELETE) :
    ChromeTabs.playbackStep env cb d s =
      (if cb then { s with errors := s.errors ++ ["unknown verb"],
                           reported := s.reported ++ [d] }
       else { s with errors := s.errors ++ ["unknown verb"] }, Except.ok ()) ∧
    ChromeTabs.playbackOutcome (ChromeTabs.playbackRunFrom env cb (d :: rest) s)
      = ChromeTabs.playbackOutcome (ChromeTabs.playbackRunFrom env cb rest
          (if cb then { s with errors := s.errors ++ ["unknown verb"],
                               reported := s.reported ++ [d] }
           else { s with errors := s.errors ++ ["unknown verb"] })) := by
  have hstep : ChromeTabs.playbackStep env cb d s =
      (if cb then { s with errors := s.errors ++ ["unknown verb"],
                           reported := s.reported ++ [d] }
       else { s with errors := s.errors ++ ["unknown verb"] }, Except.ok ()) := by
    unfold ChromeTabs.playbackStep
    rw [if_neg h1, if_neg h2]
    cases cb <;> simp
  exact ⟨hstep, playbackOutcome_cons env cb d rest s _ hstep⟩

/-- C2 amended witness: the unknown-verb entry at a concrete input, callback
supplied. -/
theorem playback_unknown_verb_witness :
    ChromeTabs.playbackStep (fun _ => Except.ok true) true sampleUnknownDoc
        ChromeTabs.initPlaybackState =
      ({ sum := 0, calls := [], errors := ["unknown verb"],
         reported := [sampleUnknownDoc] }, Except.ok ()) := by
  have h := (playback_unknown_verb (fun _ => Except.ok true) sampleUnknownDoc []
      ChromeTabs.initPlaybackState true (by decide) (by decide)).1
  simpa [ChromeTabs.initPlaybackState] using h

/-- C3: during playback, an entry whose create/delete operation resolves to a
falsy value has the supplied failure callback invoked exactly once with it,
its counter update stands, and the remaining entries still run from that
state; an entry whose operation rejects is not caught: the run rejects with
that error and no further command-layer call is ever issued. -/
theorem playback_false_vs_rejection (env : Nat → Except JsError Bool)
    (d : Doc) (rest : List Doc) (s : ChromeTabs.PlaybackState) :
    (d.verb = DB.VERB.CREATE → env s.calls.length = Except.ok false →
      ChromeTabs.playbackOutcome (ChromeTabs.playbackRunFrom env true (d :: rest) s)
        = ChromeTabs.playbackOutcome (ChromeTabs.playbackRunFrom env true rest
            { s with sum := s.sum + 1,
                     calls := s.calls ++
                       [ChromeTabs.createHighlightMessage d.range d.className d._id],
                     reported := s.reported ++ [d] })) ∧
    (∀ e cb, d.verb = DB.VERB.CREATE → env s.calls.length = Except.error e →
      ChromeTabs.playbackRunFrom env cb (d :: rest) s
        = ({ s with sum := s.sum + 1,
                    calls := s.calls ++
                      [ChromeTabs.createHighlightMessage d.range d.className d._id] },
           Except.error e)) ∧
    (d.verb = DB.VERB.DELETE → env s.calls.length = Except.ok false →
      ChromeTabs.playbackOutcome (ChromeTabs.playbackRunFrom env true (d :: rest) s)
        = ChromeTabs.playbackOutcome (ChromeTabs.playbackRunFrom env true rest
            { s with sum := s.sum - 1,
                     calls := s.calls ++
                       [ChromeTabs.deleteHighlightMessage d.correspondingDocumentId],
                     reported := s.reported ++ [d] })) ∧
    (∀ e cb, d.verb = DB.VERB.DELETE → env s.calls.length = Except.error e →
      ChromeTabs.playbackRunFrom env cb (d :: rest) s
        = ({ s with sum := s.sum - 1,
                    calls := s.calls ++
                      [ChromeTabs.deleteHighlightMessage d.correspondingDocumentId] },
           Except.error e)) := by
  have hcd : DB.VERB.CREATE ≠ DB.VERB.DELETE := by decide
  refine ⟨?_, ?_, ?_, ?_⟩
  · intro hv henv
    refine playbackOutcome_cons env true d rest s _ ?_
    unfold ChromeTabs.playbackStep
    rw [if_pos hv, henv]
    simp
  · intro e cb hv henv
    refine playbackRunFrom_cons_error env cb d rest s _ e ?_
    unfold ChromeTabs.playbackStep
    rw [if_pos hv, henv]
  · intro hv henv
    refine playbackOutcome_cons env true d rest s _ ?_
    unfold ChromeTabs.playbackStep
    rw [if_neg (hv ▸ hcd.symm : d.verb ≠ DB.VERB.CREATE), if_pos hv, henv]
    simp
  · intro e cb hv henv
    refine playbackRunFrom_cons_error env cb d rest s _ e ?_
    unfold ChromeTabs.playbackStep
    rw [if_neg (hv ▸ hcd.symm : d.verb ≠ DB.VERB.CREATE), if_pos hv, henv]

/-- C3 witness: a create entry whose call rejects aborts the run before the
second entry; a create entry resolving false is reported and the run
continues. -/
theorem playback_false_vs_rejection_witness :
    ChromeTabs.playbackRunFrom (fun _ => Except.error ⟨"transport"⟩) true
        [sampleCreateDoc, sampleDeleteDoc] ChromeTabs.initPlaybackState
      = ({ sum := 1,
           calls := [ChromeTabs.createHighlightMessage sampleCreateDoc.range
                       sampleCreateDoc.className sampleCreateDoc._id],
           errors := [], reported := [] }, Except.error ⟨"transport"⟩) := by
  have h := (playback_false_vs_rejection (fun _ => Except.error ⟨"transport"⟩)
      sampleCreateDoc [sampleDeleteDoc] ChromeTabs.initPlaybackState).2.1
      ⟨"transport"⟩ true rfl rfl
  simpa [ChromeTabs.initPlaybackState] using h

/-- The counter contribution of one playback entry: +1 for a create, -1 for a
delete, 0 for an unrecognized verb. -/
def verbDelta (d : Doc) : Int :=
  if d.verb = DB.VERB.CREATE then 1 else if d.verb = DB.VERB.DELETE then -1 else 0

/-- The net counter value of a playback log: the sum of the per-entry
contributions. -/
def netSum : List Doc → Int
  | [] => 0
  | d :: rest => verbDelta d + netSum rest

/-- The net counter value equals the number of create entries minus the
number of delete entries. -/
theorem netSum_eq_countP (docs : List Doc) :
    netSum docs = ((docs.countP fun d => d.verb == DB.VERB.CREATE : Nat) : Int)
                - ((docs.countP fun d => d.verb == DB.VERB.DELETE : Nat) : Int) := by
  induction docs with
  | nil => simp [netSum]
  | cons d rest ih =>
    simp only [netSum, ih, List.countP_cons, verbDelta, beq_iff_eq]
    by_cases h1 : d.verb = DB.VERB.CREATE
    · have h2 : ¬ (d.verb = DB.VERB.DELETE) := by
        rw [h1]; decide
      simp only [if_pos h1, if_neg h2]
      omega
    · by_cases h2 : d.verb = DB.VERB.DELETE
      · simp only [if_neg h1, if_pos h2]
        omega
      · simp only [if_neg h1, if_neg h2]
        omega

/-- Every playback step whose command-layer call (if any) settles without
rejecting settles itself, moving the counter by the verb delta. -/
theorem playbackStep_ok (env : Nat → Except JsError Bool) (cb : Bool) (d : Doc)
    (s : ChromeTabs.PlaybackState) (henv : ∀ n, ∃ b, env n = Except.ok b) :
    ∃ s1, ChromeTabs.playbackStep env cb d s = (s1, Except.ok ()) ∧
      s1.sum = s.sum + verbDelta d := by
  obtain ⟨b, hb⟩ := henv s.calls.length
  unfold ChromeTabs.playbackStep verbDelta
  by_cases h1 : d.verb = DB.VERB.CREATE
  · rw [if_pos h1, if_pos h1, hb]
    cases b <;> cases cb <;> exact ⟨_, rfl, by simp <;> omega⟩
  · by_cases h2 : d.verb = DB.VERB.DELETE
    · rw [if_neg h1, if_neg h1, if_pos h2, if_pos h2, hb]
      cases b <;> cases cb <;> exact ⟨_, rfl, by simp <;> omega⟩
    · rw [if_neg h1, if_neg h1, if_neg h2, if_neg h2]
      cases cb <;> exact ⟨_, rfl, by simp <;> omega⟩

/-- A serial playback run whose command-layer calls all settle without
rejecting settles, and its final counter is the start counter plus the net
sum of the entries. -/
theorem playbackRunFrom_all_ok (env : Nat → Except JsError Bool) (cb : Bool)
    (henv : ∀ n, ∃ b, env n = Except.ok b) :
    ∀ (docs : List Doc) (s : ChromeTabs.PlaybackState),
      ∃ s2 us, ChromeTabs.playbackRunFrom env cb docs s = (s2, Except.ok us) ∧
        s2.sum = s.sum + netSum docs := by
  intro docs
  induction docs with
  | nil => exact fun s => ⟨s, [], rfl, by simp [netSum]⟩
  | cons d rest ih =>
    intro s
    obtain ⟨s1, hstep, hsum1⟩ := playbackStep_ok env cb d s henv
    obtain ⟨s2, us, hrun, hsum2⟩ := ih s1
    refine ⟨s2, () :: us, ?_, ?_⟩
    · unfold ChromeTabs.playbackRunFrom at hrun ⊢
      simp only [List.map_cons, PromiseUtils.serial, hstep, hrun]
    · rw [hsum2, hsum1]
      simp only [netSum]
      ring

/-- C4: when every command-layer call settles without rejecting,
playbackDocuments resolves to the number of create entries minus the number
of delete entries, whatever booleans the calls resolved to; for the empty
list it resolves to 0 and issues no command-layer calls. -/
theorem playbackDocuments_net_count (env : Nat → Except JsError Bool)
    (docs : List Doc) (cb : Bool) :
    ((∀ n, ∃ b, env n = Except.ok b) →
      ChromeTabs.playbackResult env docs cb
        = Except.ok (((docs.countP fun d => d.verb == DB.VERB.CREATE : Nat) : Int)
                   - ((docs.countP fun d => d.verb == DB.VERB.DELETE : Nat) : Int))) ∧
    ChromeTabs.playbackResult env [] cb = Except.ok 0 ∧
    (ChromeTabs.playbackDocuments env [] cb).1.calls = [] := by
  refine ⟨?_, rfl, rfl⟩
  intro henv
  obtain ⟨s2, us, hrun, hsum⟩ :=
    playbackRunFrom_all_ok env cb henv docs ChromeTabs.initPlaybackState
  unfold ChromeTabs.playbackResult ChromeTabs.playbackDocuments
  rw [hrun]
  show Except.ok s2.sum = _
  rw [hsum, netSum_eq_countP]
  simp [ChromeTabs.initPlaybackState]

/-- C4 witness: a create followed by its delete, all calls resolving true,
nets to zero. -/
theorem playbackDocuments_net_count_witness :
    ChromeTabs.playbackResult (fun _ => Except.ok true)
        [sampleCreateDoc, sampleDeleteDoc] true = Except.ok 0 := by
  have h := (playbackDocuments_net_count (fun _ => Except.ok true)
      [sampleCreateDoc, sampleDeleteDoc] true).1 (fun _ => ⟨true, rfl⟩)
  simpa using h

/-! Helper lemmas about the style comparator. -/

/-- Map.set never produces an empty map. -/
theorem JsMap.set_ne_nil {β : Type} (m : JsMap β) (k : String) (v : β) :
    m.set k v ≠ [] := by
  unfold JsMap.set
  by_cases h : m.any (fun p => p.1 == k)
  · rw [if_pos h]
    intro hm
    rw [List.map_eq_nil_iff] at hm
    subst hm
    simp [List.any_nil] at h
  · rw [if_neg h]
    simp

/-- Populating the style map preserves nonemptiness. -/
theorem buildStyleMapFrom_ne_nil : ∀ (defs : List HighlightDefinition) (i : Nat)
    (m : JsMap Nat), m ≠ [] → ChromeTabs.buildStyleMapFrom i defs m ≠ [] := by
  intro defs
  induction defs with
  | nil => intro i m hm; exact hm
  | cons d rest ih =>
    intro i m _
    exact ih (i + 1) (m.set d.className i) (JsMap.set_ne_nil m d.className i)

/-- The map built from a nonempty definition list is nonempty. -/
theorem buildStyleMap_ne_nil (defs : List HighlightDefinition) (h : defs ≠ []) :
    ChromeTabs.buildStyleMap defs ≠ [] := by
  cases defs with
  | nil => exact absurd rfl h
  | cons d rest =>
    unfold ChromeTabs.buildStyleMap ChromeTabs.buildStyleMapFrom
    exact buildStyleMapFrom_ne_nil rest 1 _ (JsMap.set_ne_nil JsMap.empty d.className 0)

/-- Once the comparator map is nonempty, every further invocation leaves the
closure state untouched and resolves from the cache. -/
theorem styleComparatorRun_cached (defs : List HighlightDefinition) :
    ∀ (docs : List Doc) (s : ChromeTabs.StyleComparatorState), s.map ≠ [] →
      ChromeTabs.styleComparatorRun defs docs s
        = (s, docs.map (fun d => s.map.get d.className)) := by
  intro docs
  induction docs with
  | nil => intro s _; rfl
  | cons d rest ih =>
    intro s hs
    have hsize : ¬ (s.map.size = 0) := by
      unfold JsMap.size
      simpa [List.length_eq_zero] using hs
    have hcall : ChromeTabs.styleComparatorCall defs d s = (s, s.map.get d.className) := by
      unfold ChromeTabs.styleComparatorCall
      rw [if_neg hsize]
    unfold ChromeTabs.styleComparatorRun
    simp only [hcall, ih s hs, List.map_cons]

/-- C5 counterexample: with an empty fetched definition list, two invocations
of the same style comparator instance issue two definition fetches, refuting
the claim that the list is fetched exactly once whatever the invocations. -/
theorem styleComparator_fetch_counterexample :
    (ChromeTabs.styleComparatorRun [] [sampleCreateDoc, sampleCreateDoc]
        ChromeTabs.initStyleComparatorState).1.fetches = 2 ∧
    ¬ ((ChromeTabs.styleComparatorRun [] [sampleCreateDoc, sampleCreateDoc]
        ChromeTabs.initStyleComparatorState).1.fetches = 1) := by
  exact ⟨rfl, by decide⟩

/-- C5 amended: provided the fetched style-definition list is nonempty, any
number of invocations of the comparator returned by
getComparisonFunction("style") fetches the list exactly once, the
className-to-rank map is memoized for the lifetime of the function, and every
invocation resolves to the rank of the entry className in the built map
(none when the className is not among the definitions). -/
theorem styleComparator_memoized (defs : List HighlightDefinition) (d : Doc)
    (docs : List Doc) (h : defs ≠ []) :
    ChromeTabs.styleComparatorRun defs (d :: docs) ChromeTabs.initStyleComparatorState
      = ({ map := ChromeTabs.buildStyleMap defs, fetches := 1 },
         (d :: docs).map (fun x => (ChromeTabs.buildStyleMap defs).get x.className)) := by
  have hfirst : ChromeTabs.styleComparatorCall defs d ChromeTabs.initStyleComparatorState
      = ({ map := ChromeTabs.buildStyleMap defs, fetches := 1 },
         (ChromeTabs.buildStyleMap defs).get d.className) := rfl
  have hcached := styleComparatorRun_cached defs docs
      { map := ChromeTabs.buildStyleMap defs, fetches := 1 } (buildStyleMap_ne_nil defs h)
  unfold ChromeTabs.styleComparatorRun
  simp only [hfirst, hcached, List.map_cons]

/-- C5 amended witness: one definition, two invocations, one fetch, both
ranks resolved from the memoized map. -/
theorem styleComparator_memoized_witness :
    ChromeTabs.styleComparatorRun [{ className := "default-red", title := "Red" }]
        [sampleCreateDoc, sampleCreateDoc] ChromeTabs.initStyleComparatorState
      = ({ map := [("default-red", 0)], fetches := 1 }, [some 0, some 0]) := by
  have h := styleComparator_memoized [{ className := "default-red", title := "Red" }]
      sampleCreateDoc [sampleCreateDoc] (by decide)
  simpa using h

/-- C9: with an empty fetched definition list, the style comparator map stays
empty, so every invocation re-issues the definitions fetch (one fetch per
invocation) and resolves to none; the once-only memoization of C5 holds only
for a nonempty list. -/
theorem styleComparator_empty_defs_refetch (docs : List Doc) :
    ChromeTabs.styleComparatorRun [] docs ChromeTabs.initStyleComparatorState
      = ({ map := JsMap.empty, fetches := docs.length },
         docs.map (fun _ => none)) := by
  have main : ∀ (ds : List Doc) (f : Nat),
      ChromeTabs.styleComparatorRun [] ds { map := JsMap.empty, fetches := f }
        = ({ map := JsMap.empty, fetches := f + ds.length },
           ds.map (fun _ => none)) := by
    intro ds
    induction ds with
    | nil => intro f; rfl
    | cons d rest ih =>
      intro f
      unfold ChromeTabs.styleComparatorRun
      have hcall : ChromeTabs.styleComparatorCall [] d { map := JsMap.empty, fetches := f }
          = ({ map := JsMap.empty, fetches := f + 1 }, none) := rfl
      have harith : f + 1 + rest.length = f + (rest.length + 1) := by omega
      simp only [hcall, ih (f + 1), List.map_cons, List.length_cons, harith]
  simpa [ChromeTabs.initStyleComparatorState] using main docs 0

/-- C8: for the same sorted entry list, comparator and format,
getFormattedOverviewText with invert set iterates the entries in exactly the
reverse of the final order used without invert, so the rendered document is
the one produced from the reversed list. -/
theorem overview_invert_reverses (docs : List Doc) :
    ChromeTabs.finalDocOrder docs true = (ChromeTabs.finalDocOrder docs false).reverse ∧
    (∀ (tab : Tab) (defs : List HighlightDefinition) (format footer : String),
      ChromeTabs.getFormattedOverviewText tab defs docs format true footer
        = ChromeTabs.getFormattedOverviewText tab defs docs.reverse format false footer) := by
  refine ⟨rfl, ?_⟩
  intro tab defs format footer
  rfl

/-! Helper lemmas for the markdown rendering refinement (C7). -/

/-- A leading newline merges with a literal item marker. -/
theorem strMerge_nl_star (s : String) : "\n" ++ ("* " ++ s) = "\n* " ++ s := rfl

/-- Two leading newlines merge into a blank-line separator. -/
theorem strMerge_nl_nl (s : String) : "\n" ++ ("\n" ++ s) = "\n\n" ++ s := rfl

/-- Rendering a run of documents that all share the current className emits
one separated list item per document and leaves the current className
unchanged. -/
theorem renderBody_run (titles : JsMap String) :
    ∀ (run rest : List Doc) (c : String), (∀ x ∈ run, x.className = c) →
      ChromeTabs.renderBody titles (run ++ rest) (some c)
        = strConcat (run.map (fun x => "\n" ++ ("\n* " ++ x.text)))
          ++ ChromeTabs.renderBody titles rest (some c) := by
  intro run
  induction run with
  | nil =>
    intro rest c _
    simp [strConcat]
  | cons x run ih =>
    intro rest c hall
    have hx : x.className = c := hall x (List.mem_cons_self x run)
    have hrest : ∀ y ∈ run, y.className = c := fun y hy => hall y (List.mem_cons_of_mem x hy)
    have hcond : (some c : Option String) = some x.className := by rw [hx]
    rw [List.cons_append]
    simp only [ChromeTabs.renderBody]
    rw [if_pos hcond, ih rest c hrest]
    simp only [List.map_cons, strConcat, String.append_assoc]

/-- The blank-separated item list of a group equals one leading item plus the
remaining items each prefixed by a blank line. -/
theorem joinSep_blank_run (run : List Doc) :
    ∀ (t0 : String),
      "\n" ++ joinSep "\n\n" (("* " ++ t0) :: run.map (fun x => "* " ++ x.text))
        = ("\n* " ++ t0) ++ strConcat (run.map (fun x => "\n" ++ ("\n* " ++ x.text))) := by
  induction run with
  | nil =>
    intro t0
    simp only [List.map_nil, joinSep, strConcat, String.append_empty, strMerge_nl_star]
  | cons x run ih =>
    intro t0
    simp only [List.map_cons, joinSep, strConcat]
    simp only [String.append_assoc, strMerge_nl_star]
    rw [show ("\n\n" : String) ++ joinSep "\n\n"
          (("* " ++ x.text) :: run.map (fun y => "* " ++ y.text))
        = "\n" ++ ("\n" ++ joinSep "\n\n"
          (("* " ++ x.text) :: run.map (fun y => "* " ++ y.text)))
      from (strMerge_nl_nl _).symm]
    rw [ih x.text]
    simp only [String.append_assoc]

/-- One-step unfolding of the spec-side rendering. -/
theorem specRenderBody_cons (titles : JsMap String) (d : Doc) (rest : List Doc) :
    specRenderBody titles (d :: rest)
      = specGroupRender titles (d :: rest.takeWhile (fun e => e.className == d.className))
        ++ specRenderBody titles (rest.dropWhile (fun e => e.className == d.className)) := by
  rw [specRenderBody]

/-- The rendering loop of the source equals the grouped rendering of the
spec, for every starting className that differs from the first entry. -/
theorem renderBody_eq_specRenderBody (titles : JsMap String) :
    ∀ (n : Nat) (docs : List Doc), docs.length ≤ n → ∀ (cur : Option String),
      (∀ dd, docs.head? = some dd → cur ≠ some dd.className) →
      ChromeTabs.renderBody titles docs cur = specRenderBody titles docs := by
  intro n
  induction n with
  | zero =>
    intro docs hlen cur _
    have hnil : docs = [] := List.length_eq_zero.mp (Nat.le_zero.mp hlen)
    subst hnil
    rw [specRenderBody]
    rfl
  | succ n ih =>
    intro docs hlen cur hcur
    match docs with
    | [] =>
      rw [specRenderBody]
      rfl
    | d :: rest =>
      have hne : ¬ (cur = some d.className) := hcur d rfl
      have hsplit : rest.takeWhile (fun e => e.className == d.className)
          ++ rest.dropWhile (fun e => e.className == d.className) = rest :=
        List.takeWhile_append_dropWhile (fun e => e.className == d.className) rest
      have hrunall : ∀ x ∈ rest.takeWhile (fun e => e.className == d.className),
          x.className = d.className := by
        intro x hx
        simpa using List.mem_takeWhile_imp hx
      have hhead2 : ∀ dd, (rest.dropWhile (fun e => e.className == d.className)).head?
            = some dd → (some d.className : Option String) ≠ some dd.className := by
        intro dd hd
        have hfalse : ¬ (dd.className = d.className) := by
          have h0 := List.head?_dropWhile_not (fun e => e.className == d.className) rest
          rw [hd] at h0
          simpa using h0
        intro hc
        injection hc with hc2
        exact hfalse hc2.symm
      have hlen2 : (rest.dropWhile (fun e => e.className == d.className)).length ≤ n := by
        have h1 : (rest.dropWhile (fun e => e.className == d.className)).length
            ≤ rest.length := (List.dropWhile_sublist _).length_le
        have h2 : rest.length + 1 ≤ n + 1 := by simpa using hlen
        omega
      -- code side: new heading for d, then the run, then the tail
      simp only [ChromeTabs.renderBody]
      rw [if_neg hne]
      conv_lhs => rw [← hsplit]
      rw [renderBody_run titles _ _ d.className hrunall]
      rw [ih _ hlen2 (some d.className) hhead2]
      -- spec side
      rw [specRenderBody_cons]
      simp only [specGroupRender, List.map_cons]
      rw [String.append_assoc
          ("\n\n## " ++ ChromeTabs.optStr (titles.get d.className)) "\n"
          (joinSep "\n\n" (("* " ++ d.text) :: (rest.takeWhile
            (fun e => e.className == d.className)).map (fun x => "* " ++ x.text)))]
      rw [joinSep_blank_run (rest.takeWhile (fun e => e.className == d.className)) d.text]
      simp only [String.append_assoc]

/-- C7: getFormattedOverviewText in markdown mode renders the top-level
heading linking the tab title to its URL, then the entries in final order
grouped into maximal runs of consecutive same-className entries: each run
gets exactly one new subheading carrying the looked-up display title, its
texts are unordered list items separated by blank lines, and a new subheading
appears exactly when the className changes from the previous entry. -/
theorem renderMarkdown_grouping (tab : Tab) (titles : JsMap String) (docs : List Doc) :
    ChromeTabs.renderMarkdown tab titles docs
      = ("# [" ++ tab.title ++ "](" ++ tab.url ++ ")") ++ specRenderBody titles docs := by
  unfold ChromeTabs.renderMarkdown
  rw [renderBody_eq_specRenderBody titles docs.length docs (Nat.le_refl _) none
      (fun dd _ => by simp)]


